import Mathlib

/-!
Verification of the ViaCargo back-office core (a TypeScript/React single-page
application).  The definitions below are a shallow embedding of the program's
data model and of the functions the claims refer to:

* `src/unnamed/part_000` (the `types.ts` module): `ServiceOrder`, `Transaction`,
  `PaymentStatus`, `Financials`, `ExtraService`, `calculateCosts`,
  `calculateProfit`, `calculateReceivedAmount`.
* `src/App.tsx`: `isOrderCritical`, `checkCriticalOrders`, `monthlyRevenue`,
  `counts`, `filteredOrders`.
* `src/components/OrderForm.tsx`: `emptyOrder`, `calculateProgress` and the
  progress-sync effect, `getRoleData`, `updateRole`, `handleSubmit`.

Modelling conventions:

* JavaScript numbers holding money/quantities are embedded as `ℚ`; the decimal
  literals `0.20`/`0.40` of the source are exact rationals here.
* `YYYY-MM-DD` date strings are embedded in parsed form as a `Date` structure
  (year, month, day).  On well-formed zero-padded date strings the source's
  `pickupDate.startsWith(`YYYY-MM`)` month test is equivalent to equality of the
  year and month fields, which is how `inMonth` embeds it.  The source's
  `new Date(year, month - 1, day).getTime()` local-midnight instants are
  embedded, up to a constant affine shift, by the civil day number `dayNumber`;
  only differences and the relative order of these instants are ever used by
  the program.  Both midnights being exact day multiples, the source's
  `Math.ceil` of their difference divided by one day is the plain difference of
  day numbers.
* The source's `progress` field has TypeScript type `20 | 60 | 100`, and the
  form additionally writes the sentinel `0` (`return 0 as any`), so it is
  embedded as the four-valued `ProgressStage` with numeric value `progressVal`.
-/

namespace ViaCargo

/-- A calendar date, i.e. a parsed well-formed `YYYY-MM-DD` string. -/
structure Date where
  year : ℕ
  month : ℕ
  day : ℕ
deriving DecidableEq

/-- A `YYYY-MM` month key, parsed. -/
structure MonthKey where
  year : ℕ
  month : ℕ
deriving DecidableEq

/-- `date.startsWith(key)` for a well-formed date string and `YYYY-MM` key:
the year and month coincide. -/
def inMonth (d : Date) (k : MonthKey) : Bool :=
  d.year == k.year && d.month == k.month

/-- Civil day number (Howard Hinnant's `days_from_civil`, restricted to
non-negative years, without the Unix-epoch offset).  It is the value of
`new Date(year, month - 1, day).getTime() / 86400000` up to a constant shift;
the program only uses differences and order of these values. -/
def dayNumber (dt : Date) : ℕ :=
  let y := if dt.month ≤ 2 then dt.year - 1 else dt.year
  let era := y / 400
  let yoe := y - era * 400
  let mp := (dt.month + 9) % 12
  let doy := (153 * mp + 2) / 5 + dt.day - 1
  let doe := yoe * 365 + yoe / 4 - yoe / 100 + doy
  era * 146097 + doe

/-- `types.ts`: `ServiceType = 'helper' | 'assembler' | 'packer' | 'other'`. -/
inductive ServiceType where
  | helper
  | assembler
  | packer
  | other
deriving DecidableEq

/-- The string value of a `ServiceType` (the TS value is the string itself). -/
def typeName : ServiceType → String
  | .helper => "helper"
  | .assembler => "assembler"
  | .packer => "packer"
  | .other => "other"

/-- `types.ts`: `ExtraService`. -/
structure ExtraService where
  id : String
  type : ServiceType
  name : String
  qty : ℚ
  cost : ℚ
deriving DecidableEq

/-- `types.ts`: `Financials`. -/
structure Financials where
  totalValue : ℚ
  driverCost : ℚ
  extras : List ExtraService
deriving DecidableEq

/-- `types.ts`: `PaymentStatus`. -/
structure PaymentStatus where
  deposit : Bool
  pickup : Bool
  delivery : Bool
deriving DecidableEq

/-- `types.ts`: `ProgressStage = 20 | 60 | 100`, plus the sentinel `0` that
`OrderForm.tsx` writes through `return 0 as any`. -/
inductive ProgressStage where
  | p0
  | p20
  | p60
  | p100
deriving DecidableEq

/-- The numeric value of a progress stage (the TS value is the number). -/
def progressVal : ProgressStage → ℕ
  | .p0 => 0
  | .p20 => 20
  | .p60 => 60
  | .p100 => 100

/-- `types.ts`: `OrderNote`. -/
structure OrderNote where
  id : String
  content : String
  color : String
  createdAt : String
deriving DecidableEq

/-- `types.ts`: `ServiceOrder` (the fields the claims touch; `pickupDate` is
kept in parsed form, `deliveryForecast` is never parsed by the program and
stays a string). -/
structure ServiceOrder where
  id : String
  clientName : String
  whatsapp : String
  origin : String
  destination : String
  isContractSigned : Bool
  isPostedFretebras : Bool
  paymentStatus : PaymentStatus
  isCostsPaid : Bool
  progress : ProgressStage
  financials : Financials
  pickupDate : Date
  deliveryForecast : String
  notes : List OrderNote
  noteTags : String
  createdAt : String
deriving DecidableEq

/-- `types.ts`: `Transaction.type` is `'income' | 'expense'`. -/
inductive TxType where
  | income
  | expense
deriving DecidableEq

/-- `types.ts`: `Transaction` (`date` kept in parsed form, as for orders). -/
structure Transaction where
  id : String
  description : String
  amount : ℚ
  type : TxType
  date : Date
  category : Option String
deriving DecidableEq

/-- `types.ts` line 112: `calculateCosts(financials) = driverCost + Σ cost·qty`. -/
def calculateCosts (financials : Financials) : ℚ :=
  let extrasTotal := financials.extras.foldl (fun acc curr => acc + curr.cost * curr.qty) 0
  financials.driverCost + extrasTotal

/-- `types.ts` line 117: `calculateProfit(financials) = totalValue − calculateCosts`. -/
def calculateProfit (financials : Financials) : ℚ :=
  financials.totalValue - calculateCosts financials

/-- `types.ts` lines 122–129: `calculateReceivedAmount`, accumulating
`total * 0.20` / `total * 0.40` / `total * 0.40` for each paid milestone. -/
def calculateReceivedAmount (order : ServiceOrder) : ℚ :=
  let received : ℚ := 0
  let total := order.financials.totalValue
  let received := if order.paymentStatus.deposit then received + total * 0.20 else received
  let received := if order.paymentStatus.pickup then received + total * 0.40 else received
  let received := if order.paymentStatus.delivery then received + total * 0.40 else received
  received

/-- `App.tsx` lines 113–121: `isOrderCritical`.  `today` is the `new Date()`
of the source, reduced to its civil date (the source rounds `now` down to
local midnight before differencing). -/
def isOrderCritical (today : Date) (order : ServiceOrder) : Bool :=
  if progressVal order.progress == 100 then false
  else
    let targetDate := dayNumber order.pickupDate
    let diffDays : ℤ := (targetDate : ℤ) - (dayNumber today : ℤ)
    decide (diffDays ≤ 5)

/-- `App.tsx` lines 177–193: the `monthlyRevenue` memo, as a function of the
order list, transaction list and month key (`viewDate`'s `YYYY-MM`).  The two
`forEach` accumulation loops are embedded as left folds over a
`(cashIn, cashOut)` pair. -/
def monthlyRevenue (orders : List ServiceOrder) (transactions : List Transaction)
    (key : MonthKey) : ℚ :=
  let monthOrders := orders.filter (fun order => inMonth order.pickupDate key)
  let acc1 := monthOrders.foldl
    (fun acc order =>
      (acc.1 + calculateReceivedAmount order,
       if order.isCostsPaid then acc.2 + calculateCosts order.financials else acc.2))
    ((0 : ℚ), (0 : ℚ))
  let monthTransactions := transactions.filter (fun t => inMonth t.date key)
  let acc2 := monthTransactions.foldl
    (fun acc t =>
      (if t.type = TxType.income then acc.1 + t.amount else acc.1,
       if t.type = TxType.expense then acc.2 + t.amount else acc.2))
    acc1
  acc2.1 - acc2.2

/-- The claim's (spec §4.3) cash-in: received amounts of the month's orders
plus the month's income transactions. -/
def cashInSpec (orders : List ServiceOrder) (transactions : List Transaction)
    (key : MonthKey) : ℚ :=
  ((orders.filter (fun order => inMonth order.pickupDate key)).map calculateReceivedAmount).sum
  + ((transactions.filter (fun t => inMonth t.date key && t.type == TxType.income)).map
      (fun t => t.amount)).sum

/-- The claim's (spec §4.3) cash-out: costs of the month's orders whose costs
are paid, plus the month's expense transactions. -/
def cashOutSpec (orders : List ServiceOrder) (transactions : List Transaction)
    (key : MonthKey) : ℚ :=
  ((orders.filter (fun order => inMonth order.pickupDate key && order.isCostsPaid)).map
      (fun order => calculateCosts order.financials)).sum
  + ((transactions.filter (fun t => inMonth t.date key && t.type == TxType.expense)).map
      (fun t => t.amount)).sum

/-- `App.tsx` lines 322–329: the `counts` memo. -/
structure Counts where
  all : ℕ
  active : ℕ
  completed : ℕ
  critical : ℕ
deriving DecidableEq

/-- `App.tsx` lines 322–329: status counts over the full order list. -/
def counts (orders : List ServiceOrder) (today : Date) : Counts where
  all := orders.length
  active := (orders.filter (fun o => decide (progressVal o.progress < 100))).length
  completed := (orders.filter (fun o => progressVal o.progress == 100)).length
  critical := (orders.filter (isOrderCritical today)).length

/-- `App.tsx` line 74: the list-filter selector. -/
inductive FilterKind where
  | all
  | active
  | completed
  | critical
deriving DecidableEq

/-- `App.tsx` lines 332–338: the filter predicate of `filteredOrders`. -/
def filterPred (f : FilterKind) (today : Date) (order : ServiceOrder) : Bool :=
  match f with
  | .all => true
  | .active => decide (progressVal order.progress < 100)
  | .completed => progressVal order.progress == 100
  | .critical => isOrderCritical today order

/-- The order of the sort comparator of `App.tsx` lines 340–342:
`new Date(a.pickupDate).getTime() - new Date(b.pickupDate).getTime()`,
i.e. comparison of the pickup dates' day numbers. -/
def pickupLE (a b : ServiceOrder) : Prop :=
  dayNumber a.pickupDate ≤ dayNumber b.pickupDate

instance : DecidableRel pickupLE := fun _ _ => Nat.decLe _ _

instance : IsTotal ServiceOrder pickupLE := ⟨fun _ _ => Nat.le_total _ _⟩

instance : IsTrans ServiceOrder pickupLE := ⟨fun _ _ _ => Nat.le_trans⟩

/-- `App.tsx` lines 331–343: the `filteredOrders` memo.  ECMAScript 2019
specifies `Array.prototype.sort` to be stable, so the `.sort(comparator)`
call is embedded as a stable insertion sort with respect to the comparator's
order `pickupLE`. -/
def filteredOrders (orders : List ServiceOrder) (f : FilterKind) (today : Date) :
    List ServiceOrder :=
  (orders.filter (filterPred f today)).insertionSort pickupLE

/-- The single persisted client-side flag: `localStorage` key
`lastExpirationAlertTime` (`none` when the key is absent). -/
structure AlertStorage where
  lastAlertTime : Option ℕ
deriving DecidableEq

/-- The alert raised by `checkCriticalOrders` (`setUrgentAlert` payload). -/
structure AlertInfo where
  count : ℕ
  names : List String
deriving DecidableEq

/-- `App.tsx` line 127: `FIVE_HOURS = 5 * 60 * 60 * 1000` (milliseconds). -/
def FIVE_HOURS : ℕ := 5 * 60 * 60 * 1000

/-- `App.tsx` lines 124–137: one `checkCriticalOrders` recomputation pass.
`now` is `Date.now()` in epoch milliseconds and `today` its civil date; the
result is the alert raised by the pass (if any) together with the new
persisted storage state.  `now - t` on JavaScript numbers can only be negative
when the clock jumps backwards, in which case the `> FIVE_HOURS` test fails
exactly as it does for the truncated subtraction used here. -/
def checkCriticalOrders (orders : List ServiceOrder) (today : Date) (now : ℕ)
    (st : AlertStorage) : Option AlertInfo × AlertStorage :=
  let criticalOrders := orders.filter (isOrderCritical today)
  if criticalOrders.length > 0 then
    let shouldShow := match st.lastAlertTime with
      | none => true
      | some t => decide (now - t > FIVE_HOURS)
    if shouldShow then
      (some ⟨criticalOrders.length, criticalOrders.map (fun o => o.clientName)⟩,
       ⟨some now⟩)
    else (none, st)
  else (none, st)

/-- `OrderForm.tsx` line 98: the `formData` draft the form works on.  It is
the spread of either `emptyOrder` (no `id`/`createdAt`) or an existing order,
so those two fields are optional; `pickupDate` is the raw input string (the
empty string in the default draft). -/
structure FormData where
  id : Option String
  createdAt : Option String
  clientName : String
  whatsapp : String
  origin : String
  destination : String
  isContractSigned : Bool
  isPostedFretebras : Bool
  paymentStatus : PaymentStatus
  isCostsPaid : Bool
  progress : ProgressStage
  financials : Financials
  pickupDate : String
  deliveryForecast : String
  notes : List OrderNote
  noteTags : String
deriving DecidableEq

/-- `OrderForm.tsx` lines 18–41: the `emptyOrder` default draft. -/
def emptyOrder : FormData where
  id := none
  createdAt := none
  clientName := ""
  whatsapp := ""
  origin := ""
  destination := ""
  isContractSigned := false
  isPostedFretebras := false
  paymentStatus := ⟨false, false, false⟩
  isCostsPaid := false
  progress := .p20
  financials := ⟨0, 0, []⟩
  pickupDate := ""
  deliveryForecast := ""
  notes := []
  noteTags := "#334155"

/-- `OrderForm.tsx` lines 116–121: `calculateProgress` inside the sync
effect (`return 0 as any` is the `p0` sentinel). -/
def calculateProgress (ps : PaymentStatus) : ProgressStage :=
  if ps.delivery then .p100
  else if ps.pickup then .p60
  else if ps.deposit then .p20
  else .p0

/-- `OrderForm.tsx` lines 123–126: the body of the progress-sync effect —
if the recomputed value differs from the stored one, overwrite it. -/
def syncProgress (d : FormData) : FormData :=
  let newProgress := calculateProgress d.paymentStatus
  if d.progress = newProgress then d else { d with progress := newProgress }

/-- A write to the payment flags as the form performs it: store the new flags,
then the sync effect (whose dependency is `formData.paymentStatus`) runs. -/
def setPaymentStatus (d : FormData) (ps : PaymentStatus) : FormData :=
  syncProgress { d with paymentStatus := ps }

/-- The draft for a new order as it stands after the form mounts and before
any user edit: the init effect (`OrderForm.tsx` lines 104–112) seeds
`emptyOrder`, after which the sync effect runs (React effects run after the
first render regardless of their dependency list). -/
def initNewDraft : FormData :=
  syncProgress emptyOrder

/-- `OrderForm.tsx` lines 192–204: `handleSubmit`.  `generatedId` stands for
`OS-<year>-<random>` and `nowIso` for `new Date().toISOString()`.  A `some`
result is the unconditional `onSubmit(finalOrder)` call, which reaches the
Persistence Gateway (`createServiceOrder`/`updateServiceOrder` in `App.tsx`);
a `none` result would mean the submission was blocked, which `handleSubmit`
never does — it contains no validation, and the footer save button
(`OrderForm.tsx` lines 656–662) sits outside the `<form>` element, so the
`required` attribute of the client-name input (line 271) is not checked on
that path. -/
def handleSubmit (d : FormData) (extras : List ExtraService)
    (generatedId nowIso : String) : Option FormData :=
  some { d with
    id := some (d.id.getD generatedId),
    createdAt := some (d.createdAt.getD nowIso),
    financials := { d.financials with extras := extras } }

/-- `OrderForm.tsx` lines 44–48: `ROLE_CONFIGS` (default costs are 0). -/
structure RoleConfig where
  type : ServiceType
  label : String
  defaultCost : ℚ
deriving DecidableEq

/-- `OrderForm.tsx` lines 44–48: the three fixed role configurations. -/
def ROLE_CONFIGS : List RoleConfig :=
  [⟨.helper, "Ajudantes", 0⟩, ⟨.assembler, "Montadores", 0⟩, ⟨.packer, "Embaladores", 0⟩]

/-- `OrderForm.tsx` line 133: `ROLE_CONFIGS.find(r => r.type === type)?.defaultCost || 0`
(the `|| 0` also maps a found cost of 0 to 0, so the embedding coincides). -/
def roleDefaultCost (t : ServiceType) : ℚ :=
  match ROLE_CONFIGS.find? (fun c => c.type == t) with
  | some c => c.defaultCost
  | none => 0

/-- `OrderForm.tsx` lines 130–135: `getRoleData`, returning
`(totalQty, unitCost)` for a role. -/
def getRoleData (extras : List ExtraService) (t : ServiceType) : ℚ × ℚ :=
  let items := extras.filter (fun e => e.type == t)
  let totalQty := items.foldl (fun acc curr => acc + curr.qty) 0
  let unitCost := match items with
    | [] => roleDefaultCost t
    | e :: _ => e.cost
  (totalQty, unitCost)

/-- The single upserted entry `updateRole` builds (`OrderForm.tsx` lines
148–154); `now` stands for the `Date.now()` suffix of the generated id. -/
def mkRoleEntry (t : ServiceType) (newQty newCost : ℚ) (now : String) : ExtraService where
  id := "auto-" ++ typeName t ++ "-" ++ now
  type := t
  name := match ROLE_CONFIGS.find? (fun c => c.type == t) with
    | some c => c.label
    | none => typeName t
  qty := newQty
  cost := newCost

/-- The field selector of `updateRole`. -/
inductive RoleField where
  | qty
  | cost
deriving DecidableEq

/-- `OrderForm.tsx` lines 137–160: `updateRole` — clamp the input to 0
(`Math.max(0, value)`, written here as a conditional), keep one entry for the
role when quantity or cost is positive, drop the role's entries when both are
zero. -/
def updateRole (extras : List ExtraService) (t : ServiceType) (field : RoleField)
    (value : ℚ) (now : String) : List ExtraService :=
  let safeValue := if value < 0 then 0 else value
  let otherExtras := extras.filter (fun e => !(e.type == t))
  let currentData := getRoleData extras t
  let newQty := if field = RoleField.qty then safeValue else currentData.1
  let newCost := if field = RoleField.cost then safeValue else currentData.2
  if newQty > 0 ∨ newCost > 0 then
    otherExtras ++ [mkRoleEntry t newQty newCost now]
  else
    otherExtras

/-- A concrete order with the fields the claims vary; the remaining fields
take the neutral values of the default draft. -/
def sampleOrder (name : String) (pickup : Date) (progress : ProgressStage)
    (ps : PaymentStatus) (fin : Financials) (costsPaid : Bool) : ServiceOrder where
  id := "OS-2024-1"
  clientName := name
  whatsapp := ""
  origin := ""
  destination := ""
  isContractSigned := false
  isPostedFretebras := false
  paymentStatus := ps
  isCostsPaid := costsPaid
  progress := progress
  financials := fin
  pickupDate := pickup
  deliveryForecast := ""
  notes := []
  noteTags := "#334155"
  createdAt := ""

/-- The order of the C1 scenario: pickup 2024-06-05, total 1000, deposit and
pickup paid, delivery unpaid, costs paid, driver cost 200, no extras. -/
def c1ExampleOrder : ServiceOrder :=
  sampleOrder "Cliente" ⟨2024, 6, 5⟩ .p60 ⟨true, true, false⟩ ⟨1000, 200, []⟩ true

/-- The transaction of the C1 scenario: an expense of 50 dated 2024-06-20. -/
def c1ExampleTx : Transaction :=
  ⟨"T1", "Despesa", 50, .expense, ⟨2024, 6, 20⟩, none⟩

/-- An order with all three payment milestones paid and total value 1000. -/
def c4ExampleOrder : ServiceOrder :=
  sampleOrder "Cliente" ⟨2024, 6, 5⟩ .p100 ⟨true, true, true⟩ ⟨1000, 0, []⟩ false

/-- The fixed "today" of the C3 scenario. -/
def c3Today : Date := ⟨2024, 6, 10⟩

/-- An incomplete order due 2024-06-15 (five days ahead of `c3Today`). -/
def c3OrderDue15 : ServiceOrder :=
  sampleOrder "A" ⟨2024, 6, 15⟩ .p20 ⟨true, false, false⟩ ⟨0, 0, []⟩ false

/-- An incomplete order due 2024-06-16 (six days ahead of `c3Today`). -/
def c3OrderDue16 : ServiceOrder :=
  sampleOrder "B" ⟨2024, 6, 16⟩ .p20 ⟨true, false, false⟩ ⟨0, 0, []⟩ false

/-- An incomplete order due 2024-06-09 (one day overdue at `c3Today`). -/
def c3OrderDue09 : ServiceOrder :=
  sampleOrder "C" ⟨2024, 6, 9⟩ .p20 ⟨true, false, false⟩ ⟨0, 0, []⟩ false

end ViaCargo

namespace ViaCargo

/-- C2: for all 8 combinations of the three payment flags the derived progress
follows the priority delivery > pickup > deposit > none (100 / 60 / 20 / the
sentinel 0), a write to the payment flags recomputes progress overriding the
stored value, and deposit=true, pickup=false, delivery=true yields 100. -/
theorem claim_C2 :
    (∀ (d : FormData) (ps : PaymentStatus),
        (setPaymentStatus d ps).progress = calculateProgress ps)
    ∧ (∀ dep pick del : Bool,
        progressVal (calculateProgress ⟨dep, pick, del⟩)
          = if del then 100 else if pick then 60 else if dep then 20 else 0)
    ∧ calculateProgress ⟨true, false, true⟩ = ProgressStage.p100 := by
  refine ⟨?_, ?_, rfl⟩
  · intro d ps
    simp only [setPaymentStatus, syncProgress]
    by_cases h : d.progress = calculateProgress ps <;> simp [h]
  · intro dep pick del
    cases dep <;> cases pick <;> cases del <;> rfl

/-- C3: `isOrderCritical` is false when progress is 100 and otherwise holds
exactly when the day difference between the pickup date and today is at most
5 (including zero and negative differences); for today 2024-06-10, pickup
2024-06-15 is critical, 2024-06-16 is not, and 2024-06-09 is critical. -/
theorem claim_C3 :
    (∀ (today : Date) (order : ServiceOrder),
        isOrderCritical today order
          = (!(progressVal order.progress == 100)
              && decide ((dayNumber order.pickupDate : ℤ) - (dayNumber today : ℤ) ≤ 5)))
    ∧ isOrderCritical c3Today c3OrderDue15 = true
    ∧ isOrderCritical c3Today c3OrderDue16 = false
    ∧ isOrderCritical c3Today c3OrderDue09 = true := by
  refine ⟨?_, by decide, by decide, by decide⟩
  intro today order
  simp only [isOrderCritical]
  cases h : (progressVal order.progress == 100) <;> simp [h]

/-- C4: when all three payment milestones are paid the received amount equals
the order's total value exactly (0.20 + 0.40 + 0.40 = 1). -/
theorem claim_C4 (order : ServiceOrder)
    (h : order.paymentStatus.deposit = true ∧ order.paymentStatus.pickup = true
      ∧ order.paymentStatus.delivery = true) :
    calculateReceivedAmount order = order.financials.totalValue := by
  obtain ⟨h1, h2, h3⟩ := h
  simp only [calculateReceivedAmount, h1, h2, h3, if_true]
  ring_nf

/-- Witness for C4 at a concrete fully-paid order with total value 1000. -/
theorem claim_C4_witness : calculateReceivedAmount c4ExampleOrder = 1000 :=
  (claim_C4 c4ExampleOrder ⟨rfl, rfl, rfl⟩).trans rfl

/-- Counterexample to C8 as stated: the new-order draft as initialized by the
form (seed then the automatic progress-sync pass, before any user edit) has
progress 0, not 20. -/
theorem claim_C8_counterexample :
    initNewDraft.progress = ProgressStage.p0
    ∧ initNewDraft.progress ≠ ProgressStage.p20 := by
  decide

/-- C8 (amended): the `emptyOrder` seed has every status and payment flag
false and progress 20, but the lifecycle manager's automatic progress
derivation recomputes the draft's progress to the all-false sentinel 0 when
the form mounts, before any user edit. -/
theorem claim_C8 :
    emptyOrder.isContractSigned = false
    ∧ emptyOrder.isPostedFretebras = false
    ∧ emptyOrder.isCostsPaid = false
    ∧ emptyOrder.paymentStatus = ⟨false, false, false⟩
    ∧ emptyOrder.progress = ProgressStage.p20
    ∧ initNewDraft.progress = ProgressStage.p0 := by
  decide

/-- C9 (code bug evaluation): `handleSubmit` performs no client-name
validation — it invokes the Gateway-bound `onSubmit` for every draft, in
particular for the default draft whose client name is empty. -/
theorem claim_C9 :
    emptyOrder.clientName = ""
    ∧ (∀ (d : FormData) (extras : List ExtraService) (generatedId nowIso : String),
        (handleSubmit d extras generatedId nowIso).isSome = true)
    ∧ (handleSubmit emptyOrder [] "OS-2025-1" "2025-10-11T00:00:00.000Z").map
        FormData.clientName = some "" := by
  exact ⟨rfl, fun _ _ _ _ => rfl, rfl⟩

/-- The order loop of `monthlyRevenue` accumulates the received amounts into
the first component and the paid orders' costs into the second. -/
theorem monthlyRevenue_orders_foldl (l : List ServiceOrder) (a b : ℚ) :
    l.foldl
      (fun acc order =>
        (acc.1 + calculateReceivedAmount order,
         if order.isCostsPaid then acc.2 + calculateCosts order.financials else acc.2))
      (a, b)
    = (a + (l.map calculateReceivedAmount).sum,
       b + ((l.filter (fun o => o.isCostsPaid)).map (fun o => calculateCosts o.financials)).sum) := by
  induction l generalizing a b with
  | nil => simp
  | cons o t ih =>
    simp only [List.foldl_cons, List.map_cons, List.sum_cons, List.filter_cons]
    rw [ih]
    by_cases h : o.isCostsPaid <;> simp [h, add_assoc]

/-- The transaction loop of `monthlyRevenue` accumulates income amounts into
the first component and expense amounts into the second. -/
theorem monthlyRevenue_txs_foldl (l : List Transaction) (a b : ℚ) :
    l.foldl
      (fun acc t =>
        (if t.type = TxType.income then acc.1 + t.amount else acc.1,
         if t.type = TxType.expense then acc.2 + t.amount else acc.2))
      (a, b)
    = (a + ((l.filter (fun t => t.type == TxType.income)).map (fun t => t.amount)).sum,
       b + ((l.filter (fun t => t.type == TxType.expense)).map (fun t => t.amount)).sum) := by
  induction l generalizing a b with
  | nil => simp
  | cons x t ih =>
    simp only [List.foldl_cons, List.filter_cons]
    rw [ih]
    cases hx : x.type <;> simp [hx, add_assoc]

/-- C1: the monthly net figure is cash-in minus cash-out, with cash-in the
month orders' received amounts plus the month's income transactions and
cash-out the month orders' paid costs plus the month's expense transactions;
on the concrete scenario of the claim the result for 2024-06 is 350. -/
theorem claim_C1 :
    (∀ (orders : List ServiceOrder) (transactions : List Transaction) (key : MonthKey),
        monthlyRevenue orders transactions key
          = cashInSpec orders transactions key - cashOutSpec orders transactions key)
    ∧ monthlyRevenue [c1ExampleOrder] [c1ExampleTx] ⟨2024, 6⟩ = 350 := by
  constructor
  · intro orders transactions key
    simp only [monthlyRevenue, cashInSpec, cashOutSpec]
    rw [monthlyRevenue_orders_foldl, monthlyRevenue_txs_foldl]
    simp only [List.filter_filter]
    have e1 : orders.filter (fun o => o.isCostsPaid && inMonth o.pickupDate key)
        = orders.filter (fun o => inMonth o.pickupDate key && o.isCostsPaid) :=
      List.filter_congr (fun o _ => Bool.and_comm _ _)
    have e2 : transactions.filter (fun t => (t.type == TxType.income) && inMonth t.date key)
        = transactions.filter (fun t => inMonth t.date key && (t.type == TxType.income)) :=
      List.filter_congr (fun t _ => Bool.and_comm _ _)
    have e3 : transactions.filter (fun t => (t.type == TxType.expense) && inMonth t.date key)
        = transactions.filter (fun t => inMonth t.date key && (t.type == TxType.expense)) :=
      List.filter_congr (fun t _ => Bool.and_comm _ _)
    rw [e1, e2, e3]
    ring
  · simp [monthlyRevenue, inMonth, c1ExampleOrder, c1ExampleTx, sampleOrder,
      calculateReceivedAmount, calculateCosts]
    norm_num

/-- Filtering away a role's entries leaves nothing of that role. -/
theorem filter_other_extras (extras : List ExtraService) (t : ServiceType) :
    (extras.filter (fun e => !(e.type == t))).filter (fun e => e.type == t) = [] := by
  rw [List.filter_filter]
  exact List.filter_eq_nil_iff.mpr (fun a _ => by cases h : a.type == t <;> simp [h])

/-- The role entries of the extras working set after an `updateRole` write:
a single entry carrying the clamped new quantity and cost when either is
positive, nothing when both are zero. -/
theorem updateRole_filter (extras : List ExtraService) (t : ServiceType)
    (field : RoleField) (v : ℚ) (now : String) :
    (updateRole extras t field v now).filter (fun e => e.type == t)
      = (let safeValue := if v < 0 then 0 else v
         let newQty := if field = RoleField.qty then safeValue else (getRoleData extras t).1
         let newCost := if field = RoleField.cost then safeValue else (getRoleData extras t).2
         if newQty > 0 ∨ newCost > 0 then [mkRoleEntry t newQty newCost now] else []) := by
  simp only [updateRole]
  split_ifs <;>
    first
      | (rw [List.filter_append, filter_other_extras]; simp [mkRoleEntry])
      | exact filter_other_extras extras t

/-- C5: after every `updateRole` write the working set holds at most one entry
for the written role — exactly one, carrying the clamped new quantity and
cost, when either is positive, and none when both are zero; the claim's
concrete scenarios evaluate as stated. -/
theorem claim_C5 :
    (∀ (extras : List ExtraService) (t : ServiceType) (field : RoleField) (v : ℚ)
        (now : String),
        (updateRole extras t field v now).filter (fun e => e.type == t)
          = (let safeValue := if v < 0 then 0 else v
             let newQty := if field = RoleField.qty then safeValue else (getRoleData extras t).1
             let newCost := if field = RoleField.cost then safeValue else (getRoleData extras t).2
             if newQty > 0 ∨ newCost > 0 then [mkRoleEntry t newQty newCost now] else []))
    ∧ (∀ (extras : List ExtraService) (t : ServiceType) (field : RoleField) (v : ℚ)
        (now : String),
        ((updateRole extras t field v now).filter (fun e => e.type == t)).length ≤ 1)
    ∧ ((updateRole (updateRole (updateRole [] .helper .qty 3 "t1") .helper .cost 0 "t2")
          .helper .cost 50 "t3").map (fun e => (e.qty, e.cost)) = [(3, 50)])
    ∧ updateRole (updateRole [mkRoleEntry .helper 2 30 "t0"] .helper .qty 0 "a")
        .helper .cost 0 "b" = []
    ∧ updateRole (updateRole [mkRoleEntry .helper 2 30 "t0"] .helper .cost 0 "a")
        .helper .qty 0 "b" = [] := by
  refine ⟨?_, ?_,
    by simp [updateRole, getRoleData, roleDefaultCost, ROLE_CONFIGS, mkRoleEntry, typeName];
       norm_num,
    by simp [updateRole, getRoleData, roleDefaultCost, ROLE_CONFIGS, mkRoleEntry, typeName],
    by simp [updateRole, getRoleData, roleDefaultCost, ROLE_CONFIGS, mkRoleEntry, typeName]⟩
  · intro extras t field v now
    exact updateRole_filter extras t field v now
  · intro extras t field v now
    rw [updateRole_filter]
    split_ifs <;> simp <;> split_ifs <;> simp

/-- C6: a recomputation pass that finds critical orders is suppressed (state
unchanged) when the persisted last-alert timestamp is at most five hours old,
and raises exactly one alert carrying the count and client names — stamping
the current time — when no alert was ever raised or the last one is more than
five hours old; consequently a second pass within the window after a raising
pass is silent and a later pass outside the window raises again. -/
theorem claim_C6 (orders : List ServiceOrder) (today : Date) (st : AlertStorage)
    (now t now2 now3 : ℕ)
    (hcrit : (orders.filter (isOrderCritical today)).length > 0) :
    (st.lastAlertTime = some t → now - t ≤ FIVE_HOURS →
        checkCriticalOrders orders today now st = (none, st))
    ∧ (st.lastAlertTime = some t → now - t > FIVE_HOURS →
        checkCriticalOrders orders today now st
          = (some ⟨(orders.filter (isOrderCritical today)).length,
                   (orders.filter (isOrderCritical today)).map (fun o => o.clientName)⟩,
             ⟨some now⟩))
    ∧ (st.lastAlertTime = none →
        checkCriticalOrders orders today now st
          = (some ⟨(orders.filter (isOrderCritical today)).length,
                   (orders.filter (isOrderCritical today)).map (fun o => o.clientName)⟩,
             ⟨some now⟩))
    ∧ (now2 - now ≤ FIVE_HOURS →
        checkCriticalOrders orders today now2 ⟨some now⟩ = (none, ⟨some now⟩))
    ∧ (now3 - now > FIVE_HOURS →
        checkCriticalOrders orders today now3 ⟨some now⟩
          = (some ⟨(orders.filter (isOrderCritical today)).length,
                   (orders.filter (isOrderCritical today)).map (fun o => o.clientName)⟩,
             ⟨some now3⟩)) := by
  refine ⟨?_, ?_, ?_, ?_, ?_⟩
  · intro h1 h2
    simp [checkCriticalOrders, h1, hcrit, Nat.not_lt.mpr h2]
  · intro h1 h2
    simp [checkCriticalOrders, h1, hcrit, h2]
  · intro h1
    simp [checkCriticalOrders, h1, hcrit]
  · intro h2
    simp [checkCriticalOrders, hcrit, Nat.not_lt.mpr h2]
  · intro h2
    simp [checkCriticalOrders, hcrit, h2]

/-- Witness for C6: one concrete critical order; a pass 1000 ms after a
500 ms-old alert is suppressed, and a pass with no prior alert raises the
alert with count 1 and the client's name. -/
theorem claim_C6_witness :
    ((0 : ℕ) < ([c3OrderDue15].filter (isOrderCritical c3Today)).length)
    ∧ checkCriticalOrders [c3OrderDue15] c3Today 1000 ⟨some 500⟩ = (none, ⟨some 500⟩)
    ∧ checkCriticalOrders [c3OrderDue15] c3Today 18001000 ⟨none⟩
        = (some ⟨1, ["A"]⟩, ⟨some 18001000⟩) := by
  refine ⟨by decide, ?_, ?_⟩
  · exact (claim_C6 [c3OrderDue15] c3Today ⟨some 500⟩ 1000 500 0 0 (by decide)).1 rfl (by decide)
  · exact ((claim_C6 [c3OrderDue15] c3Today ⟨none⟩ 18001000 0 0 0 (by decide)).2.2.1
      rfl).trans (by decide)

/-- Inserting an order whose pickup-date key is `k` places it in front of the
other `k`-keyed orders (the comparator deems it not greater, so `orderedInsert`
stops at the first of them). -/
theorem filter_orderedInsert_eq (x : ServiceOrder) (k : ℕ)
    (hx : dayNumber x.pickupDate = k) (l : List ServiceOrder) :
    (l.orderedInsert pickupLE x).filter (fun o => dayNumber o.pickupDate == k)
      = x :: l.filter (fun o => dayNumber o.pickupDate == k) := by
  induction l with
  | nil => simp [hx]
  | cons b l ih =>
    simp only [List.orderedInsert]
    by_cases h : pickupLE x b
    · rw [if_pos h]
      simp [hx]
    · rw [if_neg h]
      have hb : (dayNumber b.pickupDate == k) = false := by
        simp only [pickupLE, not_le] at h
        rw [beq_eq_false_iff_ne]
        omega
      simp [List.filter_cons, hb, ih]

/-- Inserting an order whose pickup-date key is not `k` leaves the `k`-keyed
subsequence unchanged. -/
theorem filter_orderedInsert_ne (x : ServiceOrder) (k : ℕ)
    (hx : dayNumber x.pickupDate ≠ k) (l : List ServiceOrder) :
    (l.orderedInsert pickupLE x).filter (fun o => dayNumber o.pickupDate == k)
      = l.filter (fun o => dayNumber o.pickupDate == k) := by
  induction l with
  | nil => simp [hx]
  | cons b l ih =>
    simp only [List.orderedInsert]
    by_cases h : pickupLE x b
    · rw [if_pos h]
      simp [hx]
    · rw [if_neg h]
      simp only [List.filter_cons]
      rw [ih]

/-- The insertion sort of the order list preserves, for every pickup-date
key, the subsequence of orders with that key: the sort is stable. -/
theorem filter_insertionSort (k : ℕ) (l : List ServiceOrder) :
    (l.insertionSort pickupLE).filter (fun o => dayNumber o.pickupDate == k)
      = l.filter (fun o => dayNumber o.pickupDate == k) := by
  induction l with
  | nil => rfl
  | cons x l ih =>
    simp only [List.insertionSort]
    by_cases hx : dayNumber x.pickupDate = k
    · rw [filter_orderedInsert_eq x k hx, ih, List.filter_cons_of_pos (by simp [hx])]
    · rw [filter_orderedInsert_ne x k hx, ih, List.filter_cons_of_neg (by simp [hx])]

/-- C7: for every filter selection the displayed order list is the filtered
list sorted ascending by pickup date, it is a permutation of the filtered
list, and the sort is stable: for every pickup-date key the orders with that
key appear exactly in their original relative (pre-filter) order. -/
theorem claim_C7 (orders : List ServiceOrder) (f : FilterKind) (today : Date) :
    (filteredOrders orders f today).Sorted pickupLE
    ∧ (filteredOrders orders f today).Perm (orders.filter (filterPred f today))
    ∧ ∀ k : ℕ,
        (filteredOrders orders f today).filter (fun o => dayNumber o.pickupDate == k)
          = orders.filter (fun o => filterPred f today o && (dayNumber o.pickupDate == k)) := by
  refine ⟨List.sorted_insertionSort pickupLE _, List.perm_insertionSort pickupLE _, ?_⟩
  intro k
  simp only [filteredOrders]
  rw [filter_insertionSort, List.filter_filter]
  exact List.filter_congr
    (fun o _ => Bool.and_comm (dayNumber o.pickupDate == k) (filterPred f today o))

/-- C10: the active and completed buckets partition the order list, so their
counts always sum to the total count. -/
theorem claim_C10 (orders : List ServiceOrder) (today : Date) :
    (counts orders today).active + (counts orders today).completed
      = (counts orders today).all := by
  induction orders with
  | nil => rfl
  | cons o t ih =>
    simp only [counts, List.filter_cons, List.length_cons] at ih ⊢
    cases h : o.progress <;> simp [progressVal, h] at ih ⊢ <;> omega

end ViaCargo
